import Mathlib

/-!
Shallow embedding of the institut-back REST API (src/routes/institutions.js,
second version of the router, which is the one imported by the application
entry point; the first version is embedded where a claim cites it).

The route handlers are plain functions from request data and a database
state to a response and a new state.  SQL statements that the handlers
assemble as strings are embedded as string-building functions copied from
the source, so that properties of placeholder numbering can be stated
about the very strings the code produces.
-/

namespace Institut

/-- HTTP-level outcomes produced by the handlers. -/
inductive Resp where
  | ok
  | created (newId : String)
  | badRequest (msg : String)
  | notFound (msg : String)
  | conflict (msg : String)
  | serverError
  deriving DecidableEq, Repr

/-- Hexadecimal character class of the source regex character class
given by digits and the letters a-f in either case. -/
def isHexChar (c : Char) : Bool :=
  (Char.ofNat 48 ≤ c && c ≤ Char.ofNat 57) ||
  (Char.ofNat 97 ≤ c && c ≤ Char.ofNat 102) ||
  (Char.ofNat 65 ≤ c && c ≤ Char.ofNat 70)

/-- One position of the 8-4-4-4-12 uuid shape: positions 8, 13, 18, 23 hold
the separator, every other position holds a hex digit. -/
def uuidCharOk (cs : List Char) (i : Nat) : Bool :=
  if i == 8 || i == 13 || i == 18 || i == 23 then cs.getD i (Char.ofNat 32) == Char.ofNat 45
  else isHexChar (cs.getD i (Char.ofNat 32))

/-- validateUUID middleware (institutions.js lines 288-293): the regex
anchored test of the canonical 36-character uuid shape, case-insensitive. -/
def isUUID (s : String) : Bool :=
  s.length == 36 && (List.range 36).all (uuidCharOk s.toList)

/-- A segment pattern of an express route path: a literal segment or a
captured parameter such as the :id of a route path. -/
inductive Seg where
  | lit (s : String)
  | cap
  deriving DecidableEq, Repr

/-- Tags for the GET handlers registered on the v2 router. -/
inductive Handler where
  | categoriesList
  | subtypesList
  | contactTypesList
  | staffTypesList
  | utilityTypesList
  | institutionsList
  | institutionById
  | openingHoursList
  | relationList (rel : String)
  | relationGetOne (rel : String)
  | geoRegions
  | geoDistricts
  | geoCommunes
  | geoStreets
  | stats
  | nearby
  deriving DecidableEq, Repr

/-- Names of the generic child relations of the v2 router, in the order the
relations array declares them (lines 912-955; opening_hours has its own
specialised routes in v2 and is not in this array). -/
def relationNamesV2 : List String :=
  ["contacts", "staff", "utilities", "services", "photos", "education_fees", "ratios"]

/-- The GET routes of the v2 router in registration order: reference lists
(lines 300-530), the institution list (535), get-by-id (642), opening-hours
(804), the generic relation routes (957, 982), geography (1113-1253), and
only then stats (1278) and nearby (1325). -/
def getRoutesV2 : List (List Seg × Handler) :=
  [([Seg.lit "categories"], Handler.categoriesList),
   ([Seg.lit "subtypes"], Handler.subtypesList),
   ([Seg.lit "contact-types"], Handler.contactTypesList),
   ([Seg.lit "staff-types"], Handler.staffTypesList),
   ([Seg.lit "utility-types"], Handler.utilityTypesList),
   ([], Handler.institutionsList),
   ([Seg.cap], Handler.institutionById),
   ([Seg.cap, Seg.lit "opening-hours"], Handler.openingHoursList)]
  ++ (relationNamesV2.flatMap fun n =>
       [([Seg.cap, Seg.lit n], Handler.relationList n),
        ([Seg.cap, Seg.lit n, Seg.cap], Handler.relationGetOne n)])
  ++ [([Seg.lit "geo", Seg.lit "regions"], Handler.geoRegions),
      ([Seg.lit "geo", Seg.lit "districts"], Handler.geoDistricts),
      ([Seg.lit "geo", Seg.lit "communes"], Handler.geoCommunes),
      ([Seg.lit "geo", Seg.lit "streets"], Handler.geoStreets),
      ([Seg.lit "stats"], Handler.stats),
      ([Seg.lit "nearby"], Handler.nearby)]

/-- Whether one route segment pattern accepts one request path segment. -/
def segMatches : Seg → String → Bool
  | Seg.lit l, s => l == s
  | Seg.cap, _ => true

/-- Whether a whole route pattern accepts a whole request path. -/
def segsMatch : List Seg → List String → Bool
  | [], [] => true
  | p :: ps, s :: ss => segMatches p s && segsMatch ps ss
  | _, _ => false

/-- Express dispatch: the first registered route whose pattern accepts the
request path handles the request. -/
def dispatchGET (path : List String) : Option Handler :=
  (getRoutesV2.find? fun r => segsMatch r.1 path).map (fun r => r.2)

/-- The validateUUID admission gate in front of a handler body: the request
reaches the body only when the :id path parameter has the uuid shape,
otherwise the response is the 400 of the middleware. -/
def withUUIDGate (id : String) (k : Resp) : Resp :=
  if isUUID id then k else Resp.badRequest "Invalid UUID"

/-! ## Database state

Rows are keyed by uuid text.  Child rows carry the owning institution id;
the remaining columns of a child row play no role in the claims about
deletion and addressing and are not repeated here.  The institution table
is represented by its list of row keys, which is all the delete sequence
consults. -/

/-- A row of one of the eight child tables. -/
structure ChildRow where
  id : String
  institution_id : String
  deriving DecidableEq, Repr

/-- A row of the opening_hour table. -/
structure OpeningHourRow where
  id : String
  institution_id : String
  day_of_week : Int
  open_time : Option String
  close_time : Option String
  deriving DecidableEq, Repr

/-- The relational store: the institution table and its eight child
tables (the last field embeds the institution_ratio table). -/
structure DB where
  institution : List String
  contact : List ChildRow
  institution_staff : List ChildRow
  institution_utility : List ChildRow
  service : List ChildRow
  photo : List ChildRow
  opening_hour : List OpeningHourRow
  education_fee : List ChildRow
  institution_ratios : List ChildRow
  deriving DecidableEq, Repr

/-! ## DELETE /institutions/:id (v2 lines 776-797)

The handler issues BEGIN, one DELETE per child table in the order of its
tables array, the institution DELETE, then COMMIT; on any exception it
issues ROLLBACK and re-throws, which the outer catch turns into a 500.
BEGIN/COMMIT/ROLLBACK are modelled with their transaction semantics over
the store state: BEGIN snapshots, ROLLBACK restores the snapshot, COMMIT
keeps the current state. -/

/-- The eight child-table deletes of the tables array (line 784), in
source order, each removing the rows owned by the institution. -/
def childDeletes (id : String) : List (DB → DB) :=
  [fun db => { db with contact := db.contact.filter (fun row => row.institution_id != id) },
   fun db => { db with institution_staff := db.institution_staff.filter (fun row => row.institution_id != id) },
   fun db => { db with institution_utility := db.institution_utility.filter (fun row => row.institution_id != id) },
   fun db => { db with service := db.service.filter (fun row => row.institution_id != id) },
   fun db => { db with photo := db.photo.filter (fun row => row.institution_id != id) },
   fun db => { db with opening_hour := db.opening_hour.filter (fun row => row.institution_id != id) },
   fun db => { db with education_fee := db.education_fee.filter (fun row => row.institution_id != id) },
   fun db => { db with institution_ratios := db.institution_ratios.filter (fun row => row.institution_id != id) }]

/-- The final DELETE of the institution row itself (line 786). -/
def deleteInstitutionRow (id : String) (db : DB) : DB :=
  { db with institution := db.institution.filter (fun i => i != id) }

/-- The nine statements of the delete transaction in execution order. -/
def txSteps (id : String) : List (DB → DB) :=
  childDeletes id ++ [deleteInstitutionRow id]

/-- Runs the statements of a transaction in order.  `failAt = some k`
injects a store fault at the k-th statement (0-based); the error value
carries the partial state at the moment of the fault. -/
def runTx : List (DB → DB) → Option Nat → DB → Except DB DB
  | [], _, db => Except.ok db
  | _ :: _, some 0, db => Except.error db
  | f :: fs, some (k + 1), db => runTx fs (some k) (f db)
  | f :: fs, none, db => runTx fs none (f db)

/-- The expected post-state of a successful delete: the institution row and
every child row it owns are gone, everything else is untouched. -/
def deleteAllFor (id : String) (db : DB) : DB :=
  { institution := db.institution.filter (fun i => i != id),
    contact := db.contact.filter (fun row => row.institution_id != id),
    institution_staff := db.institution_staff.filter (fun row => row.institution_id != id),
    institution_utility := db.institution_utility.filter (fun row => row.institution_id != id),
    service := db.service.filter (fun row => row.institution_id != id),
    photo := db.photo.filter (fun row => row.institution_id != id),
    opening_hour := db.opening_hour.filter (fun row => row.institution_id != id),
    education_fee := db.education_fee.filter (fun row => row.institution_id != id),
    institution_ratios := db.institution_ratios.filter (fun row => row.institution_id != id) }

/-- DELETE /institutions/:id: the uuid gate, the existence check (404), then
the transaction; a fault during the transaction rolls back to the snapshot
and surfaces as a 500. -/
def deleteInstitutionHandler (db : DB) (id : String) (failAt : Option Nat) : Resp × DB :=
  if isUUID id then
    if id ∈ db.institution then
      match runTx (txSteps id) failAt db with
      | Except.ok db2 => (Resp.ok, db2)
      | Except.error _ => (Resp.serverError, db)
    else (Resp.notFound "Institution not found", db)
  else (Resp.badRequest "Invalid UUID", db)

/-! ## POST /institutions/:id/opening-hours (v2 lines 826-857) -/

/-- The specialised opening-hour create: 400 unless day_of_week is present
and in 1..7, 409 when a row for that institution and day already exists,
otherwise an insert of a fresh row (a foreign-key fault, error 23503,
becomes a 400 when the institution does not exist). -/
def postOpeningHour (db : DB) (id : String) (day : Option Int)
    (openT closeT : Option String) (fresh : String) : Resp × DB :=
  if isUUID id then
    match day with
    | none => (Resp.badRequest "day_of_week must be between 1 and 7", db)
    | some d =>
      if d < 1 ∨ 7 < d then (Resp.badRequest "day_of_week must be between 1 and 7", db)
      else if 0 < (db.opening_hour.filter
          (fun oh => oh.institution_id == id && oh.day_of_week == d)).length then
        (Resp.conflict "Opening hour already exists for this day", db)
      else if id ∈ db.institution then
        (Resp.created fresh,
         { db with opening_hour := db.opening_hour ++
            [{ id := fresh, institution_id := id, day_of_week := d,
               open_time := openT, close_time := closeT }] })
      else (Resp.badRequest "Invalid institution_id", db)
  else (Resp.badRequest "Invalid UUID", db)

/-! ## Generic child-relation routes (v2 lines 957-1106) -/

/-- One entry of the v2 relations array (lines 912-955). -/
structure Relation where
  name : String
  table : String
  fields : List String
  required : List String
  deriving DecidableEq, Repr

/-- The contacts entry of the relations array. -/
def relContacts : Relation :=
  { name := "contacts", table := "contact",
    fields := ["contact_type_id", "value"], required := ["contact_type_id", "value"] }

/-- The v2 relations array in source order. -/
def relationsV2 : List Relation :=
  [relContacts,
   { name := "staff", table := "institution_staff",
     fields := ["staff_type_id", "quantity"], required := ["staff_type_id", "quantity"] },
   { name := "utilities", table := "institution_utility",
     fields := ["utility_type_id", "availability"], required := ["utility_type_id"] },
   { name := "services", table := "service",
     fields := ["service_code", "name", "description"], required := ["service_code", "name"] },
   { name := "photos", table := "photo",
     fields := ["url", "caption", "credit"], required := ["url"] },
   { name := "education_fees", table := "education_fee",
     fields := ["level", "amount", "currency", "description"], required := ["level", "amount"] },
   { name := "ratios", table := "institution_ratio",
     fields := ["ratio_type", "value", "year"], required := ["ratio_type", "value"] }]

/-- A request body, as the partial map from field names to the values the
handler reads from it (none models an absent property). -/
def Body := String → Option String

/-- The hasOwnProperty presence test the v2 create and update use. -/
def hasOwn (body : Body) (f : String) : Bool := (body f).isSome

/-- The required-field check of the v2 create (line 1005): the required
names absent from the payload, presence tested, not truthiness. -/
def missingFields (r : Relation) (body : Body) : List String :=
  r.required.filter (fun f => !(hasOwn body f))

/-- The parameter array of the v2 generic insert (line 1021): the fresh
uuid, the :id path parameter, then the body values of the declared fields
in order (an absent optional field is passed through as null). -/
def insertParamsV2 (r : Relation) (fresh instId : String) (body : Body) :
    List (Option String) :=
  some fresh :: some instId :: r.fields.map body

/-- The VALUES placeholder list of the v2 generic insert, exactly as built
on line 1015: the template writes the index i + 3 without a dollar sign in
front of it, so the result is a list of bare numbers, not placeholders. -/
def insertPlaceholdersV2 (r : Relation) : String :=
  String.intercalate "," (r.fields.enum.map (fun p => Nat.repr (p.1 + 3)))

/-- The SQL text of the v2 generic insert (lines 1016-1019), whitespace
normalised to single spaces. -/
def insertQueryV2 (r : Relation) : String :=
  "INSERT INTO " ++ r.table ++ " (id, institution_id, " ++
    String.intercalate "," r.fields ++ ") VALUES ($1, $2, " ++
    insertPlaceholdersV2 r ++ ") RETURNING *"

/-- The SQL text of the v1 generic insert (line 273), which does prefix
each index with a dollar sign; kept for contrast with insertQueryV2. -/
def insertQueryV1 (r : Relation) : String :=
  "INSERT INTO " ++ r.table ++ " (id,institution_id," ++
    String.intercalate "," r.fields ++ ") VALUES ($1,$2," ++
    String.intercalate "," (r.fields.enum.map (fun p => "$" ++ Nat.repr (p.1 + 3))) ++
    ") RETURNING *"

/-- The fields of an update payload the v2 generic update keeps: the
declared fields present in the body, in declaration order (lines 1044-1049). -/
def updateFields (r : Relation) (body : Body) : List String :=
  r.fields.filter (hasOwn body)

/-- The SET clause of the v2 generic update, exactly as built on line 1057:
the template writes the index i + 1 without a dollar sign in front of it. -/
def setClauseV2 (fields : List String) : String :=
  String.intercalate "," (fields.enum.map (fun p => p.2 ++ "=" ++ Nat.repr (p.1 + 1)))

/-- The SQL text of the v2 generic update (lines 1059-1063), whitespace
normalised: the WHERE positions are likewise written without dollar signs. -/
def updateQueryV2 (r : Relation) (fields : List String) : String :=
  "UPDATE " ++ r.table ++ " SET " ++ setClauseV2 fields ++
    " WHERE id=" ++ Nat.repr (fields.length + 1) ++
    " AND institution_id=" ++ Nat.repr (fields.length + 2) ++ " RETURNING *"

/-- The parameter array of the v2 generic update (line 1065): the kept
body values, then the :itemId and :id path parameters. -/
def updateParamsV2 (r : Relation) (body : Body) (itemId instId : String) :
    List (Option String) :=
  (updateFields r body).map body ++ [some itemId, some instId]

/-- Number of dollar signs, hence of placeholder references, in a SQL text. -/
def dollarCount (s : String) : Nat :=
  (s.toList.filter (fun c => c == Char.ofNat 36)).length

/-- GET /institutions/:id/relation/:itemId (lines 982-997): the row match
requires both the child id and the owning institution id.  The middleware
validates only the :id parameter; a request whose :itemId is not a uuid
still reaches the store, whose uuid parser rejects the value and the
handler answers 500 from its catch.  The boolean records whether a store
query was issued at all. -/
def getOneChildHandler (rows : List ChildRow) (instId itemId : String) :
    Resp × Bool :=
  if isUUID instId then
    if isUUID itemId then
      match (rows.filter (fun row => row.id == itemId && row.institution_id == instId)).head? with
      | some _ => (Resp.ok, true)
      | none => (Resp.notFound "not found", true)
    else (Resp.serverError, true)
  else (Resp.badRequest "Invalid UUID", false)

/-- DELETE /institutions/:id/relation/:itemId (lines 1087-1105): removes
exactly the rows matching both ids; 404 when none does. -/
def deleteChildHandler (rows : List ChildRow) (instId itemId : String) :
    Resp × List ChildRow :=
  if isUUID instId then
    let hit := rows.filter (fun row => row.id == itemId && row.institution_id == instId)
    if hit.length == 0 then (Resp.notFound "not found", rows)
    else (Resp.ok, rows.filter (fun row => !(row.id == itemId && row.institution_id == instId)))
  else (Resp.badRequest "Invalid UUID", rows)

/-! ## POST /institutions (v2 lines 710-743) -/

/-- Truthiness of an optional string value: absent and the empty string
are falsy, every other string is truthy. -/
def truthyStr : Option String → Bool
  | none => false
  | some s => s != ""

/-- The character class of the email regex: anything but whitespace and
the at sign. -/
def isEmailChar (c : Char) : Bool :=
  !c.isWhitespace && c != Char.ofNat 64

/-- A nonempty run of email characters (the plus-quantified class). -/
def emailSeg (cs : List Char) : Bool :=
  !cs.isEmpty && cs.all isEmailChar

/-- The part after the at sign: some dot splits it into two nonempty runs
of email characters. -/
def emailDomainOk (ds : List Char) : Bool :=
  (List.range ds.length).any (fun j =>
    ds.getD j (Char.ofNat 32) == Char.ofNat 46 &&
    emailSeg (ds.take j) && emailSeg (ds.drop (j + 1)))

/-- The anchored email regex of line 722: a nonempty local part, the at
sign, and a domain containing a dot with nonempty runs on both sides. -/
def emailValid (s : String) : Bool :=
  let cs := s.toList
  (List.range cs.length).any (fun i =>
    cs.getD i (Char.ofNat 32) == Char.ofNat 64 &&
    emailSeg (cs.take i) && emailDomainOk (cs.drop (i + 1)))

/-- The latitude gate of line 720: a supplied, truthy (nonzero) latitude
outside the range -90..90 is rejected. -/
def jsLatGate (l : Option Rat) : Bool :=
  match l with
  | none => false
  | some q => decide (q ≠ 0) && (decide (q < -90) || decide (90 < q))

/-- The longitude gate of line 721, with the range -180..180. -/
def jsLngGate (l : Option Rat) : Bool :=
  match l with
  | none => false
  | some q => decide (q ≠ 0) && (decide (q < -180) || decide (180 < q))

/-- The email gate of line 722: a supplied, truthy email failing the regex
is rejected. -/
def jsEmailGate (e : Option String) : Bool :=
  match e with
  | none => false
  | some s => s != "" && !emailValid s

/-- The create-institution request body.  Fields the validation never
reads (label, description, the geography ids, established, capacity and
so on) are inserted verbatim and are modelled as one opaque rest. -/
structure InstBody where
  category_id : Option String
  subtype_id : Option String
  name : Option String
  lat : Option Rat
  lng : Option Rat
  email_principal : Option String
  rest : List (Option String)
  deriving DecidableEq, Repr

/-- The store outcome of the INSERT, as the handler classifies it by the
error code: 23505 is a unique violation, 23503 a foreign-key violation. -/
inductive InsertOutcome where
  | ok
  | uniqueViolation
  | fkViolation
  | otherError
  deriving DecidableEq, Repr

/-- POST /institutions: required-field truthiness check in source order
(name, category_id, subtype_id as one condition), the latitude, longitude
and email gates, then the insert of a freshly generated id with the store
outcome mapped to 201, 409, 400 or 500. -/
def createInstitution (b : InstBody) (st : InsertOutcome) (fresh : String) : Resp :=
  if !truthyStr b.name || !truthyStr b.category_id || !truthyStr b.subtype_id then
    Resp.badRequest "Required fields missing"
  else if jsLatGate b.lat then Resp.badRequest "Invalid latitude"
  else if jsLngGate b.lng then Resp.badRequest "Invalid longitude"
  else if jsEmailGate b.email_principal then Resp.badRequest "Invalid email"
  else
    match st with
    | InsertOutcome.ok => Resp.created fresh
    | InsertOutcome.uniqueViolation => Resp.conflict "Institution name already exists"
    | InsertOutcome.fkViolation => Resp.badRequest "Invalid foreign key"
    | InsertOutcome.otherError => Resp.serverError

/-! ## GET /institutions list filter builder (v1 lines 19-101; the v2 list,
lines 535-632, builds the same conditions prefixed with the join alias and
the same parameter array) -/

/-- A positional SQL parameter: the filter values are strings, the
pagination values are parsed to integers before being appended. -/
inductive SqlParam where
  | str (s : String)
  | int (n : Int)
  deriving DecidableEq, Repr

/-- One assembled predicate: the SQL fragment together with the number
that was interpolated into its placeholder. -/
structure Cond where
  sql : String
  ph : Nat
  deriving DecidableEq, Repr

/-- A placeholder reference. -/
def phStr (n : Nat) : String := "$" ++ Nat.repr n

/-- Category predicate (line 41). -/
def condCategory (n : Nat) : String :=
  "category_id = (SELECT id FROM institution_category WHERE code = " ++ phStr n ++ ")"

/-- Subtype predicate (line 46). -/
def condSubtype (n : Nat) : String :=
  "subtype_id = (SELECT id FROM institution_subtype WHERE code = " ++ phStr n ++ ")"

/-- Region predicate (line 51). -/
def condRegion (n : Nat) : String :=
  "region_id = (SELECT id FROM region WHERE code = " ++ phStr n ++ ")"

/-- District predicate (line 56). -/
def condDistrict (n : Nat) : String :=
  "district_id = (SELECT id FROM district WHERE code = " ++ phStr n ++ ")"

/-- Commune predicate (line 61). -/
def condCommune (n : Nat) : String :=
  "commune_id = (SELECT id FROM commune WHERE code = " ++ phStr n ++ ")"

/-- Street predicate (line 66): resolved by exact name. -/
def condStreet (n : Nat) : String :=
  "street_id = (SELECT id FROM street WHERE name = " ++ phStr n ++ ")"

/-- Name predicate (line 71): case-insensitive substring. -/
def condName (n : Nat) : String := "LOWER(name) LIKE " ++ phStr n

/-- Status predicate (line 76). -/
def condStatus (n : Nat) : String := "status = " ++ phStr n

/-- Minimum-capacity predicate (line 81), inclusive. -/
def condMinCap (n : Nat) : String := "capacity >= " ++ phStr n

/-- Maximum-capacity predicate (line 86), inclusive. -/
def condMaxCap (n : Nat) : String := "capacity <= " ++ phStr n

/-- The query parameters of the list route.  Filter values are the raw
query strings (absent or empty is falsy); limit and offset are modelled
already parsed, with none standing for an absent parameter. -/
structure ListQueryParams where
  category : Option String
  subtype : Option String
  region : Option String
  district : Option String
  commune : Option String
  street : Option String
  name : Option String
  status : Option String
  min_capacity : Option String
  max_capacity : Option String
  lim : Option Int
  offset : Option Int
  sort : Option String
  deriving DecidableEq, Repr

/-- One conditional push of the builder: when the filter is truthy, append
the predicate built from the next placeholder number, which is the current
parameter count plus one, and append the bound value. -/
def pushFilter (st : List Cond × List SqlParam) (present : Bool)
    (mk : Nat → String) (v : String) : List Cond × List SqlParam :=
  if present then
    (st.1 ++ [{ sql := mk (st.2.length + 1), ph := st.2.length + 1 }],
     st.2 ++ [SqlParam.str v])
  else st

/-- The ten conditional filters in the exact evaluation order of the
source: the guard, the predicate maker, and the value that is pushed (the
name filter pushes the lower-cased value wrapped in wildcards, line 72). -/
def filterSpecs (q : ListQueryParams) : List (Bool × (Nat → String) × String) :=
  [(truthyStr q.category, condCategory, q.category.getD ""),
   (truthyStr q.subtype, condSubtype, q.subtype.getD ""),
   (truthyStr q.region, condRegion, q.region.getD ""),
   (truthyStr q.district, condDistrict, q.district.getD ""),
   (truthyStr q.commune, condCommune, q.commune.getD ""),
   (truthyStr q.street, condStreet, q.street.getD ""),
   (truthyStr q.name, condName, "%" ++ (q.name.getD "").toLower ++ "%"),
   (truthyStr q.status, condStatus, q.status.getD ""),
   (truthyStr q.min_capacity, condMinCap, q.min_capacity.getD ""),
   (truthyStr q.max_capacity, condMaxCap, q.max_capacity.getD "")]

/-- The assembled clause list and parameter list. -/
def buildFilters (q : ListQueryParams) : List Cond × List SqlParam :=
  (filterSpecs q).foldl (fun st sp => pushFilter st sp.1 sp.2.1 sp.2.2) ([], [])

/-- The full parameter array sent with the list query: the filter values,
then the parsed limit and offset, defaulting to 100 and 0 (lines 32-33, 93). -/
def listParamsFull (q : ListQueryParams) : List SqlParam :=
  (buildFilters q).2 ++ [SqlParam.int (q.lim.getD 100), SqlParam.int (q.offset.getD 0)]

/-- The assembled v1 list query (lines 90-92): the base select, a WHERE
clause only when at least one predicate was pushed, then ORDER BY the sort
key and LIMIT/OFFSET on the two final placeholders. -/
def listQuerySQL (q : ListQueryParams) : String :=
  let conds := (buildFilters q).1
  let params := (buildFilters q).2
  "SELECT * FROM institution" ++
    (if 0 < conds.length then " WHERE " ++ String.intercalate " AND " (conds.map Cond.sql) else "") ++
    " ORDER BY " ++ (q.sort.getD "name") ++
    " LIMIT " ++ phStr (params.length + 1) ++ " OFFSET " ++ phStr (params.length + 2)

/-- The list response shape (lines 96-101): the page of rows, the count
field computed as the length of that very page, and the echoed pagination. -/
structure ListResp (α : Type) where
  data : List α
  count : Nat
  lim : Int
  offset : Int
  deriving DecidableEq, Repr

/-- Builds the list response from the returned page. -/
def mkListResp {α : Type} (rows : List α) (l o : Int) : ListResp α :=
  { data := rows, count := rows.length, lim := l, offset := o }

/-! ## Concrete fixtures used by witnesses and counterexamples -/

/-- A well-formed uuid. -/
def uuidA : String := "11111111-1111-1111-1111-111111111111"

/-- A second well-formed uuid. -/
def uuidB : String := "22222222-2222-2222-2222-222222222222"

/-- A store with one institution owning one contact. -/
def dbEx : DB :=
  { institution := [uuidA],
    contact := [{ id := uuidB, institution_id := uuidA }],
    institution_staff := [], institution_utility := [], service := [],
    photo := [], opening_hour := [], education_fee := [], institution_ratios := [] }

/-- A body holding only the value field of a contact update. -/
def bodyValueOnly : Body := fun f => if f == "value" then some "x" else none

/-- A body holding both required contact fields. -/
def bodyContactFull : Body :=
  fun f => if f == "contact_type_id" then some "t1"
           else if f == "value" then some "034 00 000 00" else none

/-- A contact body that additionally tries to smuggle an id and an owner. -/
def bodyContactSmuggle : Body :=
  fun f => if f == "contact_type_id" then some "t1"
           else if f == "value" then some "034 00 000 00"
           else if f == "id" then some "forged-id"
           else if f == "institution_id" then some "forged-owner" else none

/-- An empty create-institution body. -/
def emptyInstBody : InstBody :=
  { category_id := none, subtype_id := none, name := none,
    lat := none, lng := none, email_principal := none, rest := [] }

/-- A minimal valid create-institution body. -/
def okInstBody : InstBody :=
  { emptyInstBody with
      name := some "Ecole A", category_id := some uuidA, subtype_id := some uuidB }

/-- A list request with no filters and no pagination parameters. -/
def emptyQuery : ListQueryParams :=
  { category := none, subtype := none, region := none, district := none,
    commune := none, street := none, name := none, status := none,
    min_capacity := none, max_capacity := none,
    lim := none, offset := none, sort := none }

/-! ## Helper lemmas -/

/-- A fault injected before the end of the statement list makes the
transaction run end in an error. -/
lemma runTx_fail (steps : List (DB → DB)) : ∀ (k : Nat) (db : DB), k < steps.length →
    ∃ p, runTx steps (some k) db = Except.error p := by
  induction steps with
  | nil => intro k db h; simp at h
  | cons f fs ih =>
    intro k db h
    cases k with
    | zero => exact ⟨db, rfl⟩
    | succ k => exact ih k (f db) (Nat.lt_of_succ_lt_succ h)

/-- A fault-free transaction run applies every statement in order. -/
lemma runTx_none (steps : List (DB → DB)) : ∀ db : DB,
    runTx steps none db = Except.ok (steps.foldl (fun d f => f d) db) := by
  induction steps with
  | nil => intro db; rfl
  | cons f fs ih => intro db; exact ih (f db)

/-- Applying the nine delete statements in order produces exactly the
state with the institution and all of its children removed. -/
lemma txSteps_foldl (id : String) (db : DB) :
    (txSteps id).foldl (fun d f => f d) db = deleteAllFor id db := rfl

/-- The opening-hour duplicate test of the handler, stated as existence of
a row for the same institution and day. -/
lemma openingHour_filter_pos (l : List OpeningHourRow) (id : String) (d : Int) :
    0 < (l.filter (fun oh => oh.institution_id == id && oh.day_of_week == d)).length ↔
    ∃ oh ∈ l, oh.institution_id = id ∧ oh.day_of_week = d := by
  rw [List.length_pos, Ne, List.filter_eq_nil_iff]
  push_neg
  constructor
  · rintro ⟨oh, hmem, hp⟩
    simp only [Bool.and_eq_true, beq_iff_eq] at hp
    exact ⟨oh, hmem, hp.1, hp.2⟩
  · rintro ⟨oh, hmem, h1, h2⟩
    exact ⟨oh, hmem, by simp [h1, h2]⟩

/-- Invariant of the clause builder: as many predicates as parameters, and
the predicate placeholders are exactly 1, 2, ... in evaluation order. -/
def ChainOk (conds : List Cond) (params : List SqlParam) : Prop :=
  conds.length = params.length ∧ conds.map Cond.ph = List.range' 1 conds.length

/-- One conditional push preserves the builder invariant. -/
lemma pushFilter_chainOk (st : List Cond × List SqlParam) (b : Bool)
    (mk : Nat → String) (v : String) (h : ChainOk st.1 st.2) :
    ChainOk (pushFilter st b mk v).1 (pushFilter st b mk v).2 := by
  obtain ⟨h1, h2⟩ := h
  cases b with
  | false => exact ⟨h1, h2⟩
  | true =>
    refine ⟨by simp [pushFilter, h1], ?_⟩
    simp only [pushFilter, if_pos, List.map_append, List.length_append, List.map_cons,
      List.map_nil, List.length_cons, List.length_nil]
    rw [h2, ← h1]
    rw [List.range'_concat]
    simp [Nat.add_comm]

/-- The whole chain of conditional pushes preserves the invariant. -/
lemma foldl_pushFilter_chainOk (specs : List (Bool × (Nat → String) × String)) :
    ∀ st : List Cond × List SqlParam, ChainOk st.1 st.2 →
      ChainOk ((specs.foldl (fun s sp => pushFilter s sp.1 sp.2.1 sp.2.2) st)).1
              ((specs.foldl (fun s sp => pushFilter s sp.1 sp.2.1 sp.2.2) st)).2 := by
  induction specs with
  | nil => intro st h; exact h
  | cons sp sps ih =>
    intro st h
    exact ih _ (pushFilter_chainOk st sp.1 sp.2.1 sp.2.2 h)

/-! ## Claim theorems -/

/-- C1: DELETE /institutions/:id is atomic.  A missing id yields 404 with
the store untouched; a fault at any of the nine deletes (any index below
the statement count) leaves the store exactly as it was; a fault-free run
deletes the institution row and the rows of all eight child tables as one
unit and nothing else. -/
theorem C1_delete_is_atomic (db : DB) (id : String) (failAt : Option Nat) :
    (id ∉ db.institution → isUUID id = true →
        deleteInstitutionHandler db id failAt = (Resp.notFound "Institution not found", db)) ∧
    (∀ k : Nat, failAt = some k → k < (txSteps id).length →
        (deleteInstitutionHandler db id failAt).2 = db) ∧
    (id ∈ db.institution → isUUID id = true →
        deleteInstitutionHandler db id none = (Resp.ok, deleteAllFor id db)) := by
  refine ⟨?_, ?_, ?_⟩
  · intro hno hu
    simp [deleteInstitutionHandler, hu, hno]
  · intro k hk hlt
    subst hk
    obtain ⟨p, hp⟩ := runTx_fail (txSteps id) k db hlt
    by_cases hu : isUUID id
    · by_cases hm : id ∈ db.institution
      · simp [deleteInstitutionHandler, hu, hm, hp]
      · simp [deleteInstitutionHandler, hu, hm]
    · simp [deleteInstitutionHandler, hu]
  · intro hm hu
    simp [deleteInstitutionHandler, hu, hm, runTx_none, txSteps_foldl]

/-- C1 witness: on a store with one institution owning one contact, an
unknown id yields 404 unchanged, a fault at the fourth statement leaves
the store unchanged, and a clean run removes the institution and its
contact. -/
theorem C1_delete_is_atomic_witness :
    deleteInstitutionHandler dbEx uuidB none = (Resp.notFound "Institution not found", dbEx) ∧
    (deleteInstitutionHandler dbEx uuidA (some 3)).2 = dbEx ∧
    deleteInstitutionHandler dbEx uuidA none = (Resp.ok, deleteAllFor uuidA dbEx) :=
  ⟨(C1_delete_is_atomic dbEx uuidB none).1 (by decide) (by decide),
   (C1_delete_is_atomic dbEx uuidA (some 3)).2.1 3 rfl (by decide),
   (C1_delete_is_atomic dbEx uuidA none).2.2 (by decide) (by decide)⟩

/-- C2: evaluation of the v2 generic child update at a concrete failing
input.  With only the value field supplied, the assembled UPDATE carries
its column assignments and its WHERE positions as bare numbers with no
dollar sign, so the statement holds zero placeholder references, while
three bind parameters are supplied; the store rejects the bind and the
update never applies.  The claim that the update applies the supplied
subset to the row matching both ids therefore fails on this code. -/
theorem C2_generic_update_has_no_placeholders :
    updateFields relContacts bodyValueOnly = ["value"] ∧
    updateQueryV2 relContacts (updateFields relContacts bodyValueOnly) =
      "UPDATE contact SET value=1 WHERE id=2 AND institution_id=3 RETURNING *" ∧
    dollarCount (updateQueryV2 relContacts (updateFields relContacts bodyValueOnly)) = 0 ∧
    (updateParamsV2 relContacts bodyValueOnly uuidB uuidA).length = 3 := by
  refine ⟨rfl, rfl, rfl, rfl⟩

/-- C3 counterexample: a request for a child item whose :itemId segment is
malformed is not rejected by the uuid gate; the handler issues the store
query (second component true) and the response is not the 400 of the
gate. -/
theorem C3_malformed_itemid_reaches_store :
    (getOneChildHandler [] uuidA "not-a-uuid").2 = true ∧
    (getOneChildHandler [] uuidA "not-a-uuid").1 ≠ Resp.badRequest "Invalid UUID" := by
  decide

/-- C3 amended: the admission gate covers exactly the :id path parameter.
A request whose :id is malformed is answered 400 and issues no query; a
request whose :id is well-formed always issues the store query, whatever
the :itemId segment holds. -/
theorem C3_uuid_gate_covers_id_only (rows : List ChildRow) (instId itemId : String) :
    (isUUID instId = false →
        getOneChildHandler rows instId itemId = (Resp.badRequest "Invalid UUID", false)) ∧
    (isUUID instId = true → (getOneChildHandler rows instId itemId).2 = true) := by
  constructor
  · intro h
    simp [getOneChildHandler, h]
  · intro h
    by_cases h2 : isUUID itemId
    · rcases h3 : (rows.filter (fun row => row.id == itemId && row.institution_id == instId)).head? with _ | row
      · simp [getOneChildHandler, h, h2, h3]
      · simp [getOneChildHandler, h, h2, h3]
    · simp [getOneChildHandler, h, h2]

/-- C3 amended witness: a malformed :id is rejected without a query, a
well-formed :id issues the query even with a malformed :itemId. -/
theorem C3_uuid_gate_covers_id_only_witness :
    getOneChildHandler [] "zzz" uuidB = (Resp.badRequest "Invalid UUID", false) ∧
    (getOneChildHandler [] uuidA "not-a-uuid").2 = true :=
  ⟨(C3_uuid_gate_covers_id_only [] "zzz" uuidB).1 (by decide),
   (C3_uuid_gate_covers_id_only [] uuidA "not-a-uuid").2 (by decide)⟩

/-- C4: GET /institutions/stats never reaches the stats handler.  Express
dispatch resolves the path to the get-by-id route registered earlier, that
route is not the stats route, and its uuid gate answers 400 for the
segment stats whatever the handler behind the gate would produce. -/
theorem C4_stats_route_is_shadowed :
    dispatchGET ["stats"] = some Handler.institutionById ∧
    Handler.institutionById ≠ Handler.stats ∧
    ∀ k : Resp, withUUIDGate "stats" k = Resp.badRequest "Invalid UUID" := by
  refine ⟨by decide, by decide, fun k => ?_⟩
  simp [withUUIDGate, show isUUID "stats" = false by decide]

/-- C5: GET /institutions/nearby never reaches the nearby handler.  The
path resolves to the get-by-id route registered earlier, which is not the
nearby route, and its uuid gate answers 400 for the segment nearby. -/
theorem C5_nearby_route_is_shadowed :
    dispatchGET ["nearby"] = some Handler.institutionById ∧
    Handler.institutionById ≠ Handler.nearby ∧
    ∀ k : Resp, withUUIDGate "nearby" k = Resp.badRequest "Invalid UUID" := by
  refine ⟨by decide, by decide, fun k => ?_⟩
  simp [withUUIDGate, show isUUID "nearby" = false by decide]

/-- C6: evaluation of the v2 generic child create.  The presence check
does name exactly the absent required fields, and accepts a payload with
every required field present; but the INSERT the handler then assembles
writes the value positions as the bare numbers 3, 4, ... with no dollar
sign, so the statement references two placeholders while four bind
parameters are supplied, the store rejects the bind, and no row with the
payload values is ever inserted.  The v1 text of the same insert, which
does carry the dollar signs, is shown for contrast. -/
theorem C6_generic_create_insert_is_broken :
    missingFields relContacts bodyValueOnly = ["contact_type_id"] ∧
    missingFields relContacts bodyContactFull = [] ∧
    insertQueryV2 relContacts =
      "INSERT INTO contact (id, institution_id, contact_type_id,value) VALUES ($1, $2, 3,4) RETURNING *" ∧
    dollarCount (insertQueryV2 relContacts) = 2 ∧
    (insertParamsV2 relContacts uuidB uuidA bodyContactFull).length = 4 ∧
    insertQueryV1 relContacts =
      "INSERT INTO contact (id,institution_id,contact_type_id,value) VALUES ($1,$2,$3,$4) RETURNING *" := by
  refine ⟨rfl, rfl, rfl, rfl, rfl, rfl⟩

/-- C7: POST /institutions/:id/opening-hours keeps one entry per
institution and day.  An absent or out-of-range day_of_week yields 400
with the store untouched; a day already populated for that institution
yields 409 with no row inserted; otherwise a fresh row for that
institution and day is appended. -/
theorem C7_opening_hour_unique_per_day (db : DB) (id : String) (day : Option Int)
    (oT cT : Option String) (fresh : String) (hu : isUUID id = true) :
    (day = none → postOpeningHour db id day oT cT fresh =
        (Resp.badRequest "day_of_week must be between 1 and 7", db)) ∧
    (∀ d : Int, day = some d → (d < 1 ∨ 7 < d) → postOpeningHour db id day oT cT fresh =
        (Resp.badRequest "day_of_week must be between 1 and 7", db)) ∧
    (∀ d : Int, day = some d → 1 ≤ d → d ≤ 7 →
        (∃ oh ∈ db.opening_hour, oh.institution_id = id ∧ oh.day_of_week = d) →
        postOpeningHour db id day oT cT fresh =
          (Resp.conflict "Opening hour already exists for this day", db)) ∧
    (∀ d : Int, day = some d → 1 ≤ d → d ≤ 7 →
        (∀ oh ∈ db.opening_hour, oh.institution_id ≠ id ∨ oh.day_of_week ≠ d) →
        id ∈ db.institution →
        postOpeningHour db id day oT cT fresh =
          (Resp.created fresh,
           { db with opening_hour := db.opening_hour ++
              [{ id := fresh, institution_id := id, day_of_week := d,
                 open_time := oT, close_time := cT }] })) := by
  refine ⟨?_, ?_, ?_, ?_⟩
  · intro hd
    subst hd
    simp [postOpeningHour, hu]
  · intro d hd hrange
    subst hd
    simp [postOpeningHour, hu, hrange]
  · intro d hd h1 h7 hdup
    subst hd
    have hlen : 0 < (db.opening_hour.filter
        (fun oh => oh.institution_id == id && oh.day_of_week == d)).length :=
      (openingHour_filter_pos db.opening_hour id d).2 hdup
    have hgate : ¬(d < 1 ∨ 7 < d) := by omega
    simp [postOpeningHour, hu, hgate, hlen]
  · intro d hd h1 h7 hnone hm
    subst hd
    have hlen : ¬ 0 < (db.opening_hour.filter
        (fun oh => oh.institution_id == id && oh.day_of_week == d)).length := by
      intro hp
      obtain ⟨oh, hmem, hi, hdw⟩ := (openingHour_filter_pos db.opening_hour id d).1 hp
      rcases hnone oh hmem with h | h
      · exact h hi
      · exact h hdw
    have hgate : ¬(d < 1 ∨ 7 < d) := by omega
    simp [postOpeningHour, hu, hgate, hlen, hm]

/-- C7 witness: on the example store, a day out of range yields 400, a
first create for day 3 appends the row, and on the store holding that row
a second create for day 3 yields 409 unchanged. -/
theorem C7_opening_hour_unique_per_day_witness :
    postOpeningHour dbEx uuidA (some 9) none none "oh1" =
      (Resp.badRequest "day_of_week must be between 1 and 7", dbEx) ∧
    postOpeningHour dbEx uuidA (some 3) none none "oh1" =
      (Resp.created "oh1",
       { dbEx with opening_hour := dbEx.opening_hour ++
          [{ id := "oh1", institution_id := uuidA, day_of_week := 3,
             open_time := none, close_time := none }] }) ∧
    postOpeningHour
        { dbEx with opening_hour :=
            [{ id := "oh1", institution_id := uuidA, day_of_week := 3,
               open_time := none, close_time := none }] }
        uuidA (some 3) none none "oh2" =
      (Resp.conflict "Opening hour already exists for this day",
       { dbEx with opening_hour :=
          [{ id := "oh1", institution_id := uuidA, day_of_week := 3,
             open_time := none, close_time := none }] }) :=
  ⟨(C7_opening_hour_unique_per_day dbEx uuidA (some 9) none none "oh1" (by decide)).2.1
      9 rfl (by decide),
   (C7_opening_hour_unique_per_day dbEx uuidA (some 3) none none "oh1" (by decide)).2.2.2
      3 rfl (by decide) (by decide) (by decide) (by decide),
   (C7_opening_hour_unique_per_day
      { dbEx with opening_hour :=
          [{ id := "oh1", institution_id := uuidA, day_of_week := 3,
             open_time := none, close_time := none }] }
      uuidA (some 3) none none "oh2" (by decide)).2.2.1
      3 rfl (by decide) (by decide) (by decide)⟩

/-- C8: POST /institutions validation and outcome mapping.  A missing
name, category id or subtype id yields the 400 of the required check; a
supplied latitude outside -90..90 or longitude outside -180..180 yields
400; a supplied nonempty email failing the shape yields 400 (and the
shape accepts a at b dot c while rejecting a at b and a dot b at); when
validation passes, a clean insert answers 201 with the freshly generated
id, a unique violation 409 and a foreign-key violation 400. -/
theorem C8_create_institution_validation (b : InstBody) (fresh : String) :
    (b.name = none ∨ b.category_id = none ∨ b.subtype_id = none →
        ∀ st : InsertOutcome,
          createInstitution b st fresh = Resp.badRequest "Required fields missing") ∧
    (∀ l : Rat, truthyStr b.name = true → truthyStr b.category_id = true →
        truthyStr b.subtype_id = true → b.lat = some l → (l < -90 ∨ 90 < l) →
        ∀ st : InsertOutcome,
          createInstitution b st fresh = Resp.badRequest "Invalid latitude") ∧
    (∀ l : Rat, truthyStr b.name = true → truthyStr b.category_id = true →
        truthyStr b.subtype_id = true → jsLatGate b.lat = false → b.lng = some l →
        (l < -180 ∨ 180 < l) →
        ∀ st : InsertOutcome,
          createInstitution b st fresh = Resp.badRequest "Invalid longitude") ∧
    (∀ e : String, truthyStr b.name = true → truthyStr b.category_id = true →
        truthyStr b.subtype_id = true → jsLatGate b.lat = false → jsLngGate b.lng = false →
        b.email_principal = some e → e ≠ "" → emailValid e = false →
        ∀ st : InsertOutcome,
          createInstitution b st fresh = Resp.badRequest "Invalid email") ∧
    (truthyStr b.name = true → truthyStr b.category_id = true →
        truthyStr b.subtype_id = true → jsLatGate b.lat = false → jsLngGate b.lng = false →
        jsEmailGate b.email_principal = false →
        createInstitution b InsertOutcome.ok fresh = Resp.created fresh ∧
        createInstitution b InsertOutcome.uniqueViolation fresh =
          Resp.conflict "Institution name already exists" ∧
        createInstitution b InsertOutcome.fkViolation fresh =
          Resp.badRequest "Invalid foreign key") ∧
    (emailValid "a@b.c" = true ∧ emailValid "a@b" = false ∧ emailValid "a.b@" = false) := by
  refine ⟨?_, ?_, ?_, ?_, ?_, by decide⟩
  · intro h st
    rcases h with h | h | h <;> simp [createInstitution, h, truthyStr]
  · intro l htn htc hts hl hrange st
    have h0 : l ≠ 0 := by
      rcases hrange with h | h <;> intro e <;> subst e <;> norm_num at h
    have hg : jsLatGate b.lat = true := by
      rw [hl]
      simp only [jsLatGate, Bool.and_eq_true, Bool.or_eq_true, decide_eq_true_eq]
      exact ⟨h0, hrange⟩
    simp [createInstitution, htn, htc, hts, hg]
  · intro l htn htc hts hlat hl hrange st
    have h0 : l ≠ 0 := by
      rcases hrange with h | h <;> intro e <;> subst e <;> norm_num at h
    have hg : jsLngGate b.lng = true := by
      rw [hl]
      simp only [jsLngGate, Bool.and_eq_true, Bool.or_eq_true, decide_eq_true_eq]
      exact ⟨h0, hrange⟩
    simp [createInstitution, htn, htc, hts, hlat, hg]
  · intro e htn htc hts hlat hlng he hne hev st
    have hg : jsEmailGate b.email_principal = true := by
      rw [he]
      simp only [jsEmailGate, hev, Bool.not_false, Bool.and_eq_true, bne_iff_ne, ne_eq]
      exact ⟨hne, trivial⟩
    simp [createInstitution, htn, htc, hts, hlat, hlng, hg]
  · intro htn htc hts hlat hlng hem
    refine ⟨?_, ?_, ?_⟩ <;> simp [createInstitution, htn, htc, hts, hlat, hlng, hem]

/-- C8 witness: the empty body is rejected for missing required fields, a
latitude of -91 is rejected, and the minimal valid body creates with the
fresh id. -/
theorem C8_create_institution_validation_witness :
    createInstitution emptyInstBody InsertOutcome.ok "f1" =
      Resp.badRequest "Required fields missing" ∧
    createInstitution { okInstBody with lat := some (-91) } InsertOutcome.ok "f1" =
      Resp.badRequest "Invalid latitude" ∧
    createInstitution okInstBody InsertOutcome.ok "f1" = Resp.created "f1" :=
  ⟨(C8_create_institution_validation emptyInstBody "f1").1 (Or.inl rfl) InsertOutcome.ok,
   (C8_create_institution_validation { okInstBody with lat := some (-91) } "f1").2.1
      (-91) rfl rfl rfl rfl (Or.inl (by norm_num)) InsertOutcome.ok,
   ((C8_create_institution_validation okInstBody "f1").2.2.2.2.1
      rfl rfl rfl rfl rfl rfl).1⟩

/-- C9: the list filter builder pushes one predicate and one parameter per
truthy filter, so predicate count equals parameter count and the
placeholders are numbered 1, 2, ... in evaluation order with none skipped
or reused; with no filters the clause list is empty and the query carries
no WHERE; the pagination values are always the last two parameters, as
integers, defaulting to 100 and 0; and the response count is the length
of the returned page. -/
theorem C9_list_filter_builder (q : ListQueryParams) (rows : List String) :
    (buildFilters q).1.length = (buildFilters q).2.length ∧
    (buildFilters q).1.map Cond.ph = List.range' 1 (buildFilters q).1.length ∧
    (q.category = none → q.subtype = none → q.region = none → q.district = none →
     q.commune = none → q.street = none → q.name = none → q.status = none →
     q.min_capacity = none → q.max_capacity = none →
       (buildFilters q).1 = [] ∧
       listQuerySQL q = "SELECT * FROM institution" ++ " ORDER BY " ++ (q.sort.getD "name") ++
         " LIMIT " ++ phStr 1 ++ " OFFSET " ++ phStr 2) ∧
    listParamsFull q =
      (buildFilters q).2 ++ [SqlParam.int (q.lim.getD 100), SqlParam.int (q.offset.getD 0)] ∧
    (mkListResp rows (q.lim.getD 100) (q.offset.getD 0)).count =
      (mkListResp rows (q.lim.getD 100) (q.offset.getD 0)).data.length := by
  have hc := foldl_pushFilter_chainOk (filterSpecs q) ([], []) ⟨rfl, rfl⟩
  refine ⟨hc.1, hc.2, ?_, rfl, rfl⟩
  intro h1 h2 h3 h4 h5 h6 h7 h8 h9 h10
  obtain ⟨c, s, r, d, co, str, nm, stt, mi, ma, li, off, so⟩ := q
  simp only at h1 h2 h3 h4 h5 h6 h7 h8 h9 h10
  subst h1 h2 h3 h4 h5 h6 h7 h8 h9 h10
  exact ⟨rfl, rfl⟩

/-- C9 witness: the empty request builds no predicate and the query text
without a WHERE clause. -/
theorem C9_list_filter_builder_witness :
    (buildFilters emptyQuery).1 = [] ∧
    listQuerySQL emptyQuery = "SELECT * FROM institution" ++ " ORDER BY " ++
      (emptyQuery.sort.getD "name") ++ " LIMIT " ++ phStr 1 ++ " OFFSET " ++ phStr 2 :=
  (C9_list_filter_builder emptyQuery []).2.2.1 rfl rfl rfl rfl rfl rfl rfl rfl rfl rfl

/-- C10: every generic child create takes the owner from the path and the
identifier from the server.  No relation declares id or institution_id
among its insertable fields; the parameter array the insert binds starts
with the fresh identifier and the :id path value; and two payloads that
agree on the declared fields produce identical parameter arrays, so body
entries named id or institution_id cannot influence the insert. -/
theorem C10_child_create_is_server_owned (r : Relation) (hr : r ∈ relationsV2)
    (b1 b2 : Body) (hagree : ∀ f ∈ r.fields, b1 f = b2 f) (fresh instId : String) :
    ("id" ∉ r.fields ∧ "institution_id" ∉ r.fields) ∧
    insertParamsV2 r fresh instId b1 = insertParamsV2 r fresh instId b2 ∧
    (insertParamsV2 r fresh instId b1).take 2 = [some fresh, some instId] := by
  fin_cases hr <;>
    exact ⟨by decide, by
      simp only [insertParamsV2]
      rw [List.map_congr_left hagree], rfl⟩

/-- C10 witness: a contact payload that smuggles id and institution_id
fields produces the same insert parameters as the honest payload, and the
first two bound values are the fresh id and the path institution. -/
theorem C10_child_create_is_server_owned_witness :
    insertParamsV2 relContacts "f1" uuidA bodyContactFull =
      insertParamsV2 relContacts "f1" uuidA bodyContactSmuggle ∧
    (insertParamsV2 relContacts "f1" uuidA bodyContactFull).take 2 =
      [some "f1", some uuidA] := by
  have h := C10_child_create_is_server_owned relContacts (by decide)
    bodyContactFull bodyContactSmuggle
    (by intro f hf; fin_cases hf <;> rfl) "f1" uuidA
  exact ⟨h.2.1, h.2.2⟩

end Institut
